import Mathlib

/-!
Verification of the Cluster-in-the-Cloud installer (`install-citc.py`).

The script is a sequential shell-out workflow.  We embed it shallowly:

* pure helpers of the script (`aws_config_file`, `config_file`,
  `download_terraform`'s platform/URL logic) become pure Lean functions,
  translated line by line from the source;
* the effectful orchestration in `main` becomes a function from the
  parsed arguments (`Args`) and an oracle describing the external world
  (`World`: exit codes and outputs of the external processes, the initial
  file listing, the host platform) to a trace of external events
  (`List Event`) together with the run's `Outcome`;
* Python's `str.replace`, `str.strip`, `in` and `str.split` are modelled
  by fuel-free structural recursions over `List Char` so that every
  definition evaluates inside the kernel.

The unbounded `scp` retry loop is modelled by the oracle field
`scpFails` (the number of failing attempts an execution sees before the
first success) together with `scpExit` (the exit code of each attempt);
an execution in which the copy never succeeds never terminates in the
script and has no trace here.
-/

namespace CitC

/-- Python truthiness of an optional string argument: `None` and the
empty string are falsy (this is exactly what `if args.region:` tests). -/
def truthy : Option String → Bool
  | none => false
  | some s => !(s == "")

/-- Value of an optional argument once known truthy. -/
def pyGet (v : Option String) : String := v.getD ""

/-- Strip characters satisfying `p` from both ends of a string
(Python's `str.strip`). -/
def pyStrip (p : Char → Bool) (s : String) : String :=
  String.mk (((s.data.dropWhile p).reverse.dropWhile p).reverse)

/-- `terraform output` post-processing from the source:
`.decode().strip().strip(chr 34)` — strip whitespace, then quotes. -/
def pyOutput (s : String) : String :=
  pyStrip (fun c => c == '"') (pyStrip (fun c => c.isWhitespace) s)

/-- One step bound on the fuel-indexed replacement: Python's
`str.replace` scans left to right, replacing non-overlapping matches.
The patterns used by the script are non-empty literals, so the empty
pattern is treated as a no-match. -/
def replaceAux (pat rep : List Char) : Nat → List Char → List Char
  | 0, s => s
  | _ + 1, [] => []
  | fuel + 1, c :: cs =>
    if !pat.isEmpty && pat.isPrefixOf (c :: cs) then
      rep ++ replaceAux pat rep fuel (List.drop pat.length (c :: cs))
    else
      c :: replaceAux pat rep fuel cs

/-- Python's `str.replace` (all occurrences, left to right). -/
def pyReplace (s pat rep : String) : String :=
  String.mk (replaceAux pat.data rep.data s.data.length s.data)

/-- Contiguous-sublist test on characters. -/
def subList (needle : List Char) : List Char → Bool
  | [] => needle.isEmpty
  | c :: cs => needle.isPrefixOf (c :: cs) || subList needle cs

/-- Python's `needle in hay` on strings. -/
def pyIn (needle hay : String) : Bool := subList needle.data hay.data

/-- Python's `str.startswith`. -/
def pyStartsWith (s pre : String) : Bool := pre.data.isPrefixOf s.data

/-- Split a character list at a separator character (Python `str.split`
with a one-character separator). -/
def splitOnChar (sep : Char) : List Char → List (List Char)
  | [] => [[]]
  | c :: cs =>
    let r := splitOnChar sep cs
    if c == sep then
      [] :: r
    else
      match r with
      | [] => [[c]]
      | h :: t => (c :: h) :: t

/-- The repository-name component of a GitHub `owner/name` string. -/
def repo_name (r : String) : String :=
  String.mk ((splitOnChar '/' r.data).getLastD [])

/-- The parsed command line of `install-citc.py` (argparse namespace).
`csp` is the positional provider choice; the three AWS options and the
two Ansible overrides are `None` when not passed. -/
structure Args where
  csp : String := "aws"
  dry_run : Bool := false
  region : Option String := none
  availability_zone : Option String := none
  profile : Option String := none
  terraform_repo : String := "clusterinthecloud/terraform"
  terraform_branch : String := "master"
  ansible_repo : Option String := none
  ansible_branch : Option String := none
deriving DecidableEq

/-- Exit code and captured output of one external process invocation. -/
structure SubprocResult where
  exitCode : Int
  output : String
deriving DecidableEq

/-- Oracle for the external world one run of the script observes. -/
structure World where
  /-- Result of the `aws --dry-run ec2 describe-images` probe. -/
  probe : SubprocResult := { exitCode := 0, output := "" }
  /-- Host `sys.platform`. -/
  platform : String := "linux"
  /-- Names present in the working directory before the run. -/
  fs0 : List String := []
  /-- Content of `citc-key` when it already exists, else `none`. -/
  key : Option String := none
  /-- Exit code of `ssh-keygen` when it is invoked. -/
  keygenExit : Int := 0
  /-- Key content `ssh-keygen` would create. -/
  freshKey : String := "KEY"
  /-- Exit code of `terraform init`. -/
  initExit : Int := 0
  /-- Exit code of `terraform validate`. -/
  validateExit : Int := 0
  /-- Content of `aws/terraform.tfvars` before rendering. -/
  template : String := ""
  /-- Content of `citc-key.pub`. -/
  pubKeyText : String := ""
  /-- Exit code of `terraform apply -auto-approve`. -/
  applyExit : Int := 0
  /-- Result of `terraform output ... ManagementPublicIP`. -/
  ipOut : SubprocResult := { exitCode := 0, output := "" }
  /-- Result of `terraform output ... cluster_id`. -/
  idOut : SubprocResult := { exitCode := 0, output := "" }
  /-- Number of failing `scp` attempts before the first success. -/
  scpFails : Nat := 0
  /-- Exit code of the i-th `scp` attempt (0-based). -/
  scpExit : Nat → Int := fun _ => 0

/-- External side effects of the run, in order. -/
inductive Event where
  | printMsg (s : String)
  | probeCall (cmd : List String)
  | urlretrieve (url : String)
  | extractTar
  | extractZip
  | chmodExec (path : String)
  | rmtreeIgnore (dir : String)
  | rmtree (dir : String)
  | renameDir (src dst : String)
  | chdir (dir : String)
  | sshKeygen (keyfile : String)
  | tfCmd (chdirArg sub : String)
  | tfApply (chdirArg : String)
  | tfOutput (chdirArg name : String)
  | makeArchive (base fmt root baseDir : String)
  | scpAttempt (cmd : List String) (exit : Int)
  | sleep (secs : Nat)
  | removeFile (path : String)
deriving DecidableEq

/-- How the process ends: normal exit 0, an explicit `exit(code)`, or an
uncaught Python exception (which also yields a non-zero process exit). -/
inductive Outcome where
  | ok
  | exited (code : Nat)
  | raised (msg : String)
deriving DecidableEq

/-- Sequencing of the trace-producing, fallible steps of `main`: an
error stops the run, keeping the events emitted so far. -/
def seqE {α β : Type} (a : List Event × Except Outcome α)
    (f : α → List Event × Except Outcome β) : List Event × Except Outcome β :=
  match a with
  | (ev, Except.error o) => (ev, Except.error o)
  | (ev, Except.ok x) => (ev ++ (f x).1, (f x).2)

/-- The credential-probe command (source lines 39-43). -/
def check_command (args : Args) : List String :=
  ["aws", "--dry-run", "ec2", "describe-images"]
    ++ (if truthy args.profile then ["--profile", pyGet args.profile] else [])
    ++ (if truthy args.region then ["--region", pyGet args.region] else [])

/-- Credential preflight (source lines 37-50): skipped under dry-run;
on probe failure, a RequestExpired marker prints a diagnostic, and any
output lacking the DryRunOperation marker is printed and exits 1. -/
def preflight (args : Args) (w : World) : List Event × Except Outcome Unit :=
  if args.dry_run then
    ([], Except.ok ())
  else if w.probe.exitCode = 0 then
    ([Event.probeCall (check_command args)], Except.ok ())
  else if pyIn "DryRunOperation" w.probe.output then
    ([Event.probeCall (check_command args)]
      ++ (if pyIn "RequestExpired" w.probe.output then
            [Event.printMsg "AWS credentials have expired:"] else []),
     Except.ok ())
  else
    ([Event.probeCall (check_command args)]
      ++ (if pyIn "RequestExpired" w.probe.output then
            [Event.printMsg "AWS credentials have expired:"] else [])
      ++ [Event.printMsg w.probe.output],
     Except.error (Outcome.exited 1))

/-- The GitHub archive URL of the Terraform configuration (line 54). -/
def repo_url (args : Args) : String :=
  "https://github.com/" ++ args.terraform_repo ++ "/archive/"
    ++ args.terraform_branch ++ ".tar.gz"

/-- Modelled external contract of GitHub archives plus `tarfile`:
extracting `owner/name/archive/branch.tar.gz` produces a single
top-level directory named `name-branch`. -/
def extracted_dir (args : Args) : String :=
  repo_name args.terraform_repo ++ "-" ++ args.terraform_branch

/-- Fetch and normalize the Terraform configuration (lines 52-58):
download, extract, remove any stale `citc-terraform`, rename the
directory literally called `terraform-<branch>` (an `os.rename` of a
missing source raises FileNotFoundError), and enter it. -/
def fetch_repo (args : Args) (w : World) : List Event × Except Outcome Unit :=
  if ("terraform-" ++ args.terraform_branch) ∈
      (extracted_dir args :: w.fs0).filter (fun d => !(d == "citc-terraform")) then
    ([Event.printMsg "Downloading CitC Terraform configuration",
      Event.urlretrieve (repo_url args), Event.extractTar,
      Event.rmtreeIgnore "citc-terraform",
      Event.renameDir ("terraform-" ++ args.terraform_branch) "citc-terraform",
      Event.chdir "citc-terraform"],
     Except.ok ())
  else
    ([Event.printMsg "Downloading CitC Terraform configuration",
      Event.urlretrieve (repo_url args), Event.extractTar,
      Event.rmtreeIgnore "citc-terraform"],
     Except.error (Outcome.raised "FileNotFoundError"))

/-- Platform dispatch of `download_terraform` (lines 119-126). -/
def tf_platform (p : String) : Except String String :=
  if pyStartsWith p "linux" then
    Except.ok "linux_amd64"
  else if p = "darwin" then
    Except.ok "darwin_amd64"
  else if p = "win32" then
    Except.error "Windows is not supported at the moment"
  else
    Except.error ("Platform " ++ p ++ " is not supported")

/-- The version-templated download URL (lines 128-129). -/
def tf_url (version p : String) : String :=
  "https://releases.hashicorp.com/terraform/" ++ version ++ "/terraform_"
    ++ version ++ "_" ++ p ++ ".zip"

/-- `download_terraform` (lines 116-134): resolve the platform (raising
NotImplementedError before any download on an unsupported one), fetch
the zip, extract, mark executable. -/
def download_terraform (platform version : String) : List Event × Except Outcome String :=
  match tf_platform platform with
  | Except.error m => ([], Except.error (Outcome.raised ("NotImplementedError: " ++ m)))
  | Except.ok p =>
    ([Event.printMsg "Downloading Terraform binary",
      Event.urlretrieve (tf_url version p), Event.extractZip,
      Event.chmodExec "terraform"], Except.ok "./terraform")

/-- Key-pair ensure step (lines 63-64): `ssh-keygen` runs only when
`citc-key` is not already a file; `key` is the key file's content when
present. -/
def ensure_key (key : Option String) (keygenExit : Int) (fresh : String) :
    List Event × Except Outcome (Option String) :=
  match key with
  | some k => ([], Except.ok (some k))
  | none =>
    if keygenExit = 0 then
      ([Event.sshKeygen "citc-key"], Except.ok (some fresh))
    else
      ([Event.sshKeygen "citc-key"], Except.error (Outcome.raised "CalledProcessError"))

/-- `terraform init` and `terraform validate` (lines 67-68), each a
`check_call` that raises on non-zero exit. -/
def init_validate (args : Args) (w : World) : List Event × Except Outcome Unit :=
  if w.initExit ≠ 0 then
    ([Event.tfCmd args.csp "init"], Except.error (Outcome.raised "CalledProcessError"))
  else if w.validateExit ≠ 0 then
    ([Event.tfCmd args.csp "init", Event.tfCmd args.csp "validate"],
     Except.error (Outcome.raised "CalledProcessError"))
  else
    ([Event.tfCmd args.csp "init", Event.tfCmd args.csp "validate"], Except.ok ())

/-- AWS variable-file rendering (lines 155-166): replace the default
key path, inject the (stripped) public key after the heredoc marker,
then conditionally append region / availability_zone / profile. -/
def aws_config_file (config : String) (args : Args) (pub_key_raw : String) : String :=
  let config := pyReplace config "~/.ssh/aws-key" "citc-key"
  let pub_key_text := pyStrip (fun c => c.isWhitespace) pub_key_raw
  let config := pyReplace config "admin_public_keys = <<EOF"
    ("admin_public_keys = <<EOF\n" ++ pub_key_text)
  let config := if truthy args.region then
      config ++ "\nregion = \"" ++ pyGet args.region ++ "\"" else config
  let config := if truthy args.availability_zone then
      config ++ "\navailability_zone = \"" ++ pyGet args.availability_zone ++ "\"" else config
  let config := if truthy args.profile then
      config ++ "\nprofile = \"" ++ pyGet args.profile ++ "\"" else config
  config

/-- `config_file` (lines 137-152): provider dispatch (only `aws` is
implemented; anything else raises NotImplementedError) plus the two
unconditional-when-set Ansible appends. -/
def config_file (csp : String) (args : Args) (template pub_key_raw : String) :
    Except String String :=
  if csp = "aws" then
    let config := aws_config_file template args pub_key_raw
    let config := if truthy args.ansible_repo then
        config ++ "\nansible_repo = \"" ++ pyGet args.ansible_repo ++ "\"" else config
    let config := if truthy args.ansible_branch then
        config ++ "\nansible_branch = \"" ++ pyGet args.ansible_branch ++ "\"" else config
    Except.ok config
  else
    Except.error "Other providers are not supported yet"

/-- The config-rendering step as it appears in `main` (line 71). -/
def cfg_step (args : Args) (w : World) : List Event × Except Outcome String :=
  match config_file args.csp args w.template w.pubKeyText with
  | Except.error m => ([], Except.error (Outcome.raised ("NotImplementedError: " ++ m)))
  | Except.ok cfg => ([], Except.ok cfg)

/-- Apply and output extraction (lines 74-83): under dry-run, no tool
calls and the fixed placeholders; otherwise `apply` then two `output`
invocations, each fatal on non-zero exit, with the script's
strip-and-unquote post-processing on success. -/
def apply_outputs (args : Args) (w : World) : List Event × Except Outcome (String × String) :=
  if args.dry_run then
    ([Event.printMsg "... pretending to create the cluster ..."],
     Except.ok ("1.1.1.1", "test-cluster"))
  else if w.applyExit ≠ 0 then
    ([Event.tfApply args.csp], Except.error (Outcome.raised "CalledProcessError"))
  else if w.ipOut.exitCode ≠ 0 then
    ([Event.tfApply args.csp, Event.tfOutput args.csp "ManagementPublicIP"],
     Except.error (Outcome.raised "CalledProcessError"))
  else if w.idOut.exitCode ≠ 0 then
    ([Event.tfApply args.csp, Event.tfOutput args.csp "ManagementPublicIP",
      Event.tfOutput args.csp "cluster_id"],
     Except.error (Outcome.raised "CalledProcessError"))
  else
    ([Event.tfApply args.csp, Event.tfOutput args.csp "ManagementPublicIP",
      Event.tfOutput args.csp "cluster_id"],
     Except.ok (pyOutput w.ipOut.output, pyOutput w.idOut.output))

/-- Modelled contract of `shutil.make_archive(base, gztar, ...)`: the
created (and returned) file is `base.tar.gz`. -/
def make_archive_name (base : String) : String := base ++ ".tar.gz"

/-- The scp command of line 95. -/
def scp_cmd (key_path tf_zip dst : String) : List String :=
  ["scp", "-i", key_path, "-o", "StrictHostKeyChecking no",
   "-o", "IdentitiesOnly=yes", tf_zip, dst]

/-- The retry loop of lines 95-97, for an execution whose attempts
`i, i+1, ...` end with `n` failures before a final attempt: each
non-zero exit is followed by a progress print and a 10-second sleep,
then the identical command again. -/
def scpLoopFrom (e : Nat → Int) (cmd : List String) : Nat → Nat → List Event
  | i, 0 => [Event.scpAttempt cmd (e i)]
  | i, n + 1 =>
    Event.scpAttempt cmd (e i)
      :: Event.printMsg "Trying to upload Terraform state..."
      :: Event.sleep 10
      :: scpLoopFrom e cmd (i + 1) n

/-- State Handoff (lines 85-100): leave the working directory, rename
it to embed the cluster id, delete the provider-local `.terraform`
cache, archive, transfer (or simulate under dry-run), and delete the
local archive. -/
def handoff (args : Args) (w : World) (ip cluster_id : String) : List Event :=
  [Event.chdir "..",
   Event.renameDir "citc-terraform" ("citc-terraform-" ++ cluster_id),
   Event.rmtree ("citc-terraform-" ++ cluster_id ++ "/" ++ args.csp ++ "/.terraform"),
   Event.makeArchive "citc-terraform" "gztar" "." ("citc-terraform-" ++ cluster_id)]
  ++ (if args.dry_run then
        [Event.printMsg ("... pretending to upload the config "
          ++ make_archive_name "citc-terraform" ++ " to the cluster ...")]
      else
        scpLoopFrom w.scpExit
          (scp_cmd ("citc-terraform-" ++ cluster_id ++ "/citc-key")
            (make_archive_name "citc-terraform") ("citc@" ++ ip ++ ":."))
          0 w.scpFails)
  ++ [Event.removeFile (make_archive_name "citc-terraform")]

/-- The final summary prints (lines 102-113). -/
def summary (csp key_path ip : String) : List Event :=
  [Event.printMsg "",
   Event.printMsg (String.mk (List.replicate 80 '#')),
   Event.printMsg "",
   Event.printMsg ("The file '" ++ key_path ++ "' will allow you to log into the new cluster"),
   Event.printMsg "Make sure you save this key as it is needed to destroy the cluster later.",
   Event.printMsg "",
   Event.printMsg ("The IP address of the cluster is " ++ ip),
   Event.printMsg "Connect with:",
   Event.printMsg ("  ssh -i " ++ key_path ++ " citc@" ++ ip),
   Event.printMsg "",
   Event.printMsg "You can destroy the cluster with:",
   Event.printMsg ("  python destroy-citc.py " ++ csp ++ " " ++ ip ++ " " ++ key_path)]

/-- The step sequence of `main` after the opening banner print. -/
def mainChain (args : Args) (w : World) : List Event × Except Outcome Unit :=
  seqE (preflight args w) (fun _ =>
  seqE (fetch_repo args w) (fun _ =>
  seqE (download_terraform w.platform "1.0.3") (fun _ =>
  seqE (ensure_key w.key w.keygenExit w.freshKey) (fun _ =>
  seqE (init_validate args w) (fun _ =>
  seqE (cfg_step args w) (fun _ =>
  seqE (apply_outputs args w) (fun out =>
    (handoff args w out.1 out.2
       ++ summary args.csp ("citc-terraform-" ++ out.2 ++ "/citc-key") out.1,
     Except.ok ()))))))))

/-- The body of `main` after successful argument parsing. -/
def mainRun (args : Args) (w : World) : List Event × Outcome :=
  (Event.printMsg "Installing Cluster in the Cloud on AWS" :: (mainChain args w).1,
   match (mainChain args w).2 with
   | Except.ok _ => Outcome.ok
   | Except.error o => o)

/-- The whole script: `argparse` rejects any provider outside the
closed choice list with exit code 2 before anything runs. -/
def main (args : Args) (w : World) : List Event × Outcome :=
  if args.csp ∈ ["aws"] then mainRun args w else ([], Outcome.exited 2)

/-- Events that contact the network or invoke the credential probe,
apply, output extraction, or transfer tools. -/
def isSideEffect : Event → Bool
  | Event.probeCall _ => true
  | Event.tfApply _ => true
  | Event.tfOutput _ _ => true
  | Event.scpAttempt _ _ => true
  | _ => false

/-- Events that constitute the State Handoff's observable work. -/
def isHandoffEv : Event → Bool
  | Event.makeArchive _ _ _ _ => true
  | Event.scpAttempt _ _ => true
  | _ => false

/-- Archive-construction events. -/
def isMakeArchiveEv : Event → Bool
  | Event.makeArchive _ _ _ _ => true
  | _ => false

/-- Network download events. -/
def isDownloadEv : Event → Bool
  | Event.urlretrieve _ => true
  | _ => false

/-- The optional appended assignment produced by one truthy argument:
the text the renderer adds for a present, non-empty value, and nothing
otherwise. -/
def optAssign (pre : String) (v : Option String) : String :=
  if truthy v then pre ++ pyGet v ++ "\"" else ""

/-- The unconditional part of the AWS rendering: the two in-place
replacements, before any appends. -/
def aws_base (config : String) (pub_key_raw : String) : String :=
  pyReplace (pyReplace config "~/.ssh/aws-key" "citc-key")
    "admin_public_keys = <<EOF"
    ("admin_public_keys = <<EOF\n" ++ pyStrip (fun c => c.isWhitespace) pub_key_raw)


/-! ### Helper lemmas about the sequencing combinator -/

theorem seqE_fst_mem_left {α β : Type} {e : Event} {a : List Event × Except Outcome α}
    {f : α → List Event × Except Outcome β} (h : e ∈ a.1) : e ∈ (seqE a f).1 := by
  rcases a with ⟨ev, r⟩
  cases r with
  | error o => simpa [seqE] using h
  | ok x => simp [seqE] at h ⊢; exact Or.inl h

theorem mem_seqE {α β : Type} {e : Event} {a : List Event × Except Outcome α}
    {f : α → List Event × Except Outcome β} (h : e ∈ (seqE a f).1) :
    e ∈ a.1 ∨ ∃ x, a.2 = Except.ok x ∧ e ∈ (f x).1 := by
  rcases a with ⟨ev, r⟩
  cases r with
  | error o => simp [seqE] at h; exact Or.inl h
  | ok x =>
    simp [seqE] at h
    rcases h with h | h
    · exact Or.inl h
    · exact Or.inr ⟨x, rfl, h⟩

theorem seqE_snd_congr {α β : Type} (a : List Event × Except Outcome α)
    {f g : α → List Event × Except Outcome β} (h : ∀ x, (f x).2 = (g x).2) :
    (seqE a f).2 = (seqE a g).2 := by
  rcases a with ⟨ev, r⟩
  cases r <;> simp [seqE, h]

/-! ### Helper lemmas about the scp retry loop -/

theorem scpLoopFrom_countP_archive (e : Nat → Int) (cmd : List String) :
    ∀ n i, (scpLoopFrom e cmd i n).countP isMakeArchiveEv = 0 := by
  intro n
  induction n with
  | zero => intro i; simp [scpLoopFrom, isMakeArchiveEv]
  | succ n ih => intro i; simp [scpLoopFrom, List.countP_cons, isMakeArchiveEv, ih]

theorem scpLoopFrom_cons (e : Nat → Int) (cmd : List String) (n i : Nat) :
    ∃ rest, scpLoopFrom e cmd i n = Event.scpAttempt cmd (e i) :: rest := by
  cases n <;> exact ⟨_, rfl⟩

theorem scpLoopFrom_getLast (e : Nat → Int) (cmd : List String) :
    ∀ n i, (scpLoopFrom e cmd i n).getLast? = some (Event.scpAttempt cmd (e (i + n))) := by
  intro n
  induction n with
  | zero => intro i; simp [scpLoopFrom]
  | succ n ih =>
    intro i
    have h := ih (i + 1)
    obtain ⟨rest, hr⟩ := scpLoopFrom_cons e cmd n (i + 1)
    rw [hr] at h
    simp only [scpLoopFrom]
    rw [hr, List.getLast?_cons_cons, List.getLast?_cons_cons, List.getLast?_cons_cons, h]
    have harith : i + 1 + n = i + (n + 1) := by omega
    rw [harith]

theorem scpLoopFrom_mem_attempt (e : Nat → Int) (cmd : List String) :
    ∀ n i cmd0 c, Event.scpAttempt cmd0 c ∈ scpLoopFrom e cmd i n → cmd0 = cmd := by
  intro n
  induction n with
  | zero =>
    intro i cmd0 c h
    simp [scpLoopFrom] at h
    exact h.1
  | succ n ih =>
    intro i cmd0 c h
    simp [scpLoopFrom] at h
    rcases h with ⟨h1, _⟩ | h
    · exact h1
    · exact ih (i + 1) cmd0 c h


theorem scpLoopFrom_retry (e : Nat → Int) (cmd : List String) :
    ∀ n i, e (i + n) = 0 → ∀ k cmd0 c,
      (scpLoopFrom e cmd i n).get? k = some (Event.scpAttempt cmd0 c) → c ≠ 0 →
      (scpLoopFrom e cmd i n).get? (k + 1) =
          some (Event.printMsg "Trying to upload Terraform state...")
        ∧ (scpLoopFrom e cmd i n).get? (k + 2) = some (Event.sleep 10)
        ∧ ∃ c2, (scpLoopFrom e cmd i n).get? (k + 3) = some (Event.scpAttempt cmd0 c2) := by
  intro n
  induction n with
  | zero =>
    intro i hz k cmd0 c hk hc
    simp only [Nat.add_zero] at hz
    simp only [scpLoopFrom] at hk
    rcases k with _ | k
    · simp at hk
      exact absurd (hk.2.symm.trans hz) hc
    · simp at hk
  | succ n ih =>
    intro i hz k cmd0 c hk hc
    have hz2 : e (i + 1 + n) = 0 := by
      have : i + 1 + n = i + (n + 1) := by omega
      rw [this]; exact hz
    obtain ⟨rest, hr⟩ := scpLoopFrom_cons e cmd n (i + 1)
    rcases k with _ | _ | _ | k
    · -- the failing attempt itself: the three following events
      simp only [scpLoopFrom] at hk ⊢
      simp at hk
      refine ⟨rfl, rfl, ?_⟩
      rw [hr]
      exact ⟨e (i + 1), by simp [hk.1]⟩
    · simp only [scpLoopFrom] at hk
      simp at hk
    · simp only [scpLoopFrom] at hk
      simp at hk
    · -- inside the recursive tail
      simp only [scpLoopFrom] at hk ⊢
      simp only [List.get?_cons_succ] at hk ⊢
      exact ih (i + 1) hz2 k cmd0 c hk hc


/-! ### Which event classes each phase can emit -/

theorem preflight_dry (args : Args) (w : World) (h : args.dry_run = true) :
    preflight args w = ([], Except.ok ()) := by
  simp [preflight, h]

theorem preflight_handoff_free (args : Args) (w : World) :
    ∀ e ∈ (preflight args w).1, isHandoffEv e = false := by
  intro e he
  unfold preflight at he
  split at he
  · simp at he
  · split at he
    · simp at he
      subst he
      rfl
    · split at he
      · split at he
        · simp at he
          rcases he with rfl | rfl <;> rfl
        · simp at he
          subst he
          rfl
      · split at he
        · simp at he
          rcases he with rfl | rfl | rfl <;> rfl
        · simp at he
          rcases he with rfl | rfl <;> rfl

theorem fetch_repo_quiet (args : Args) (w : World) :
    ∀ e ∈ (fetch_repo args w).1, isSideEffect e = false ∧ isHandoffEv e = false := by
  intro e he
  unfold fetch_repo at he
  split at he
  · simp at he
    rcases he with rfl | rfl | rfl | rfl | rfl | rfl <;> exact ⟨rfl, rfl⟩
  · simp at he
    rcases he with rfl | rfl | rfl | rfl <;> exact ⟨rfl, rfl⟩

theorem fetch_repo_has_url (args : Args) (w : World) :
    Event.urlretrieve (repo_url args) ∈ (fetch_repo args w).1 := by
  unfold fetch_repo
  split <;> simp

theorem download_quiet (p v : String) :
    ∀ e ∈ (download_terraform p v).1, isSideEffect e = false ∧ isHandoffEv e = false := by
  intro e he
  unfold download_terraform at he
  split at he
  · simp at he
  · simp at he
    rcases he with rfl | rfl | rfl | rfl <;> exact ⟨rfl, rfl⟩

theorem ensure_key_quiet (key : Option String) (ex : Int) (fresh : String) :
    ∀ e ∈ (ensure_key key ex fresh).1, isSideEffect e = false ∧ isHandoffEv e = false := by
  intro e he
  unfold ensure_key at he
  split at he
  · simp at he
  · split at he <;> simp at he <;> subst he <;> exact ⟨rfl, rfl⟩

theorem init_validate_quiet (args : Args) (w : World) :
    ∀ e ∈ (init_validate args w).1, isSideEffect e = false ∧ isHandoffEv e = false := by
  intro e he
  unfold init_validate at he
  split at he
  · simp at he
    subst he
    exact ⟨rfl, rfl⟩
  · split at he <;> simp at he <;> rcases he with rfl | rfl <;> exact ⟨rfl, rfl⟩

theorem cfg_step_fst (args : Args) (w : World) : (cfg_step args w).1 = [] := by
  unfold cfg_step
  split <;> rfl

theorem apply_outputs_handoff_free (args : Args) (w : World) :
    ∀ e ∈ (apply_outputs args w).1, isHandoffEv e = false := by
  intro e he
  unfold apply_outputs at he
  split at he
  · simp at he
    subst he
    rfl
  · split at he
    · simp at he
      subst he
      rfl
    · split at he
      · simp at he
        rcases he with rfl | rfl <;> rfl
      · split at he <;> simp at he <;> rcases he with rfl | rfl | rfl <;> rfl

theorem apply_outputs_dry (args : Args) (w : World) (h : args.dry_run = true) :
    apply_outputs args w =
      ([Event.printMsg "... pretending to create the cluster ..."],
       Except.ok ("1.1.1.1", "test-cluster")) := by
  simp [apply_outputs, h]

theorem handoff_dry_side (args : Args) (w : World) (ip cid : String)
    (h : args.dry_run = true) :
    ∀ e ∈ handoff args w ip cid, isSideEffect e = false := by
  intro e he
  simp [handoff, h] at he
  rcases he with rfl | rfl | rfl | rfl | rfl | rfl <;> rfl

theorem summary_quiet (csp kp ip : String) :
    ∀ e ∈ summary csp kp ip, isSideEffect e = false ∧ isHandoffEv e = false := by
  intro e he
  simp [summary] at he
  rcases he with rfl | rfl | rfl | rfl | rfl | rfl | rfl | rfl | rfl | rfl | rfl | rfl <;>
    exact ⟨rfl, rfl⟩


/-- The (single) scp command every transfer attempt of a run uses. -/
def handoff_cmd (ip cluster_id : String) : List String :=
  scp_cmd ("citc-terraform-" ++ cluster_id ++ "/citc-key")
    (make_archive_name "citc-terraform") ("citc@" ++ ip ++ ":.")

/-! ### Locating events inside the whole run -/

theorem mem_mainChain {args : Args} {w : World} {e : Event}
    (h : e ∈ (mainChain args w).1) :
    e ∈ (preflight args w).1 ∨ e ∈ (fetch_repo args w).1
      ∨ e ∈ (download_terraform w.platform "1.0.3").1
      ∨ e ∈ (ensure_key w.key w.keygenExit w.freshKey).1
      ∨ e ∈ (init_validate args w).1 ∨ e ∈ (cfg_step args w).1
      ∨ e ∈ (apply_outputs args w).1
      ∨ ∃ out, (apply_outputs args w).2 = Except.ok out
          ∧ (e ∈ handoff args w out.1 out.2
             ∨ e ∈ summary args.csp ("citc-terraform-" ++ out.2 ++ "/citc-key") out.1) := by
  unfold mainChain at h
  rcases mem_seqE h with h | ⟨_, _, h⟩
  · exact Or.inl h
  rcases mem_seqE h with h | ⟨_, _, h⟩
  · exact Or.inr (Or.inl h)
  rcases mem_seqE h with h | ⟨_, _, h⟩
  · exact Or.inr (Or.inr (Or.inl h))
  rcases mem_seqE h with h | ⟨_, _, h⟩
  · exact Or.inr (Or.inr (Or.inr (Or.inl h)))
  rcases mem_seqE h with h | ⟨_, _, h⟩
  · exact Or.inr (Or.inr (Or.inr (Or.inr (Or.inl h))))
  rcases mem_seqE h with h | ⟨_, _, h⟩
  · exact Or.inr (Or.inr (Or.inr (Or.inr (Or.inr (Or.inl h)))))
  rcases mem_seqE h with h | ⟨out, hout, h⟩
  · exact Or.inr (Or.inr (Or.inr (Or.inr (Or.inr (Or.inr (Or.inl h))))))
  · simp only [List.mem_append] at h
    exact Or.inr (Or.inr (Or.inr (Or.inr (Or.inr (Or.inr (Or.inr ⟨out, hout, h⟩))))))

theorem mem_mainRun {args : Args} {w : World} {e : Event}
    (h : e ∈ (mainRun args w).1) :
    e = Event.printMsg "Installing Cluster in the Cloud on AWS"
      ∨ e ∈ (mainChain args w).1 := by
  simpa [mainRun] using h

theorem mainChain_mem_fetch {args : Args} {w : World} {e : Event}
    (hpre : (preflight args w).2 = Except.ok ()) (he : e ∈ (fetch_repo args w).1) :
    e ∈ (mainChain args w).1 := by
  unfold mainChain
  rcases hp : preflight args w with ⟨ev1, r1⟩
  rw [hp] at hpre
  simp at hpre
  subst hpre
  simp only [seqE, List.mem_append]
  exact Or.inr (seqE_fst_mem_left he)

theorem mainChain_scp_indep (args : Args) (w : World) (n : Nat) (e : Nat → Int) :
    (mainChain args { w with scpFails := n, scpExit := e }).2 = (mainChain args w).2 := by
  unfold mainChain
  apply seqE_snd_congr
  intro _
  apply seqE_snd_congr
  intro _
  apply seqE_snd_congr
  intro _
  apply seqE_snd_congr
  intro _
  apply seqE_snd_congr
  intro _
  apply seqE_snd_congr
  intro _
  apply seqE_snd_congr
  intro _
  rfl


theorem mainChain_pre_err (args : Args) (w : World) (o : Outcome)
    (h : (preflight args w).2 = Except.error o) :
    mainChain args w = ((preflight args w).1, Except.error o) := by
  rcases hp : preflight args w with ⟨ev1, r1⟩
  rw [hp] at h
  simp at h
  subst h
  simp [mainChain, hp, seqE]

theorem cfg_step_aws (args : Args) (w : World) (hcsp : args.csp = "aws") :
    ∃ cfg, cfg_step args w = ([], Except.ok cfg) := by
  rcases hc : config_file args.csp args w.template w.pubKeyText with m | cfg
  · rw [hcsp] at hc
    simp [config_file] at hc
  · exact ⟨cfg, by unfold cfg_step; rw [hc]⟩

theorem mainChain_eval (args : Args) (w : World) (st : Option String) (tfv : String)
    (hpre : (preflight args w).2 = Except.ok ())
    (hfetch : (fetch_repo args w).2 = Except.ok ())
    (htool : (download_terraform w.platform "1.0.3").2 = Except.ok tfv)
    (hkey : (ensure_key w.key w.keygenExit w.freshKey).2 = Except.ok st)
    (hiv : (init_validate args w).2 = Except.ok ())
    (hcsp : args.csp = "aws") :
    mainChain args w =
      ((preflight args w).1 ++ ((fetch_repo args w).1
        ++ ((download_terraform w.platform "1.0.3").1
        ++ ((ensure_key w.key w.keygenExit w.freshKey).1
        ++ ((init_validate args w).1
        ++ ((apply_outputs args w).1
        ++ (match (apply_outputs args w).2 with
            | Except.ok out =>
                handoff args w out.1 out.2
                  ++ summary args.csp ("citc-terraform-" ++ out.2 ++ "/citc-key") out.1
            | Except.error _ => [])))))),
       match (apply_outputs args w).2 with
       | Except.ok _ => Except.ok ()
       | Except.error o => Except.error o) := by
  obtain ⟨cfg, hcfg⟩ := cfg_step_aws args w hcsp
  rcases hp1 : preflight args w with ⟨ev1, r1⟩
  rw [hp1] at hpre
  simp at hpre
  subst hpre
  rcases hp2 : fetch_repo args w with ⟨ev2, r2⟩
  rw [hp2] at hfetch
  simp at hfetch
  subst hfetch
  rcases hp3 : download_terraform w.platform "1.0.3" with ⟨ev3, r3⟩
  rw [hp3] at htool
  simp at htool
  subst htool
  rcases hp4 : ensure_key w.key w.keygenExit w.freshKey with ⟨ev4, r4⟩
  rw [hp4] at hkey
  simp at hkey
  subst hkey
  rcases hp5 : init_validate args w with ⟨ev5, r5⟩
  rw [hp5] at hiv
  simp at hiv
  subst hiv
  rcases hp7 : apply_outputs args w with ⟨ev7, r7⟩
  unfold mainChain
  rw [hp1, hp2, hp3, hp4, hp5, hcfg, hp7]
  cases r7 <;> simp [seqE]


/-! ### Claim C6 -/

/-- Claim C6 (corrected, counterexample part): it is false that the tool
fetcher maps host platforms to an archive-naming scheme for three OS
families — every successfully mapped platform receives one of only two
archive names. -/
theorem C6_counterexample :
    ¬ ∃ s : Finset String, s.card = 3 ∧ ∀ n ∈ s, ∃ p, tf_platform p = Except.ok n := by
  rintro ⟨s, hcard, hmem⟩
  have hsub : s ⊆ ({"linux_amd64", "darwin_amd64"} : Finset String) := by
    intro n hn
    obtain ⟨p, hp⟩ := hmem n hn
    unfold tf_platform at hp
    split_ifs at hp with h1 h2 h3 <;> simp_all
  have hle := Finset.card_le_card hsub
  rw [hcard] at hle
  have h2 : ({"linux_amd64", "darwin_amd64"} : Finset String).card = 2 := by decide
  omega

/-- Claim C6 (corrected): the tool fetcher maps exactly two OS families
to an archive name — platforms starting with "linux" and the platform
"darwin" — and builds exactly one version-templated URL for each; the
explicitly named family "win32" and every other platform fail with a
NotImplementedError before any download (an empty event trace). -/
theorem C6_amended :
    (∀ p n, tf_platform p = Except.ok n ↔
        (pyStartsWith p "linux" = true ∧ n = "linux_amd64")
          ∨ (p = "darwin" ∧ n = "darwin_amd64"))
    ∧ (∀ p v n, tf_platform p = Except.ok n →
        download_terraform p v =
          ([Event.printMsg "Downloading Terraform binary",
            Event.urlretrieve (tf_url v n), Event.extractZip,
            Event.chmodExec "terraform"], Except.ok "./terraform"))
    ∧ (∀ p v m, tf_platform p = Except.error m →
        download_terraform p v =
          ([], Except.error (Outcome.raised ("NotImplementedError: " ++ m))))
    ∧ tf_platform "win32" = Except.error "Windows is not supported at the moment" := by
  refine ⟨?_, ?_, ?_, rfl⟩
  · intro p n
    constructor
    · intro h
      unfold tf_platform at h
      split_ifs at h with h1 h2 h3 <;> simp_all
    · rintro (⟨hl, rfl⟩ | ⟨rfl, rfl⟩)
      · simp [tf_platform, hl]
      · rfl
  · intro p v n h
    unfold download_terraform
    rw [h]
  · intro p v m h
    unfold download_terraform
    rw [h]

/-- Claim C6 witness: concrete instances of the amended theorem. -/
theorem C6_witness :
    tf_platform "linux" = Except.ok "linux_amd64"
      ∧ download_terraform "win32" "1.0.3" =
          ([], Except.error (Outcome.raised
            ("NotImplementedError: " ++ "Windows is not supported at the moment"))) :=
  ⟨(C6_amended.1 "linux" "linux_amd64").mpr (Or.inl ⟨by decide, rfl⟩),
   C6_amended.2.2.1 "win32" "1.0.3" "Windows is not supported at the moment"
     C6_amended.2.2.2⟩

/-! ### Claim C7 -/

/-- Claim C7 (corrected, counterexample part): a request whose region is
present but empty gets no region assignment line at all — the renderer
tests Python truthiness, not presence. -/
def argsC7 : Args := { region := some "" }

/-- Claim C7 (corrected, counterexample): with region present-but-empty
the rendered config equals the template; no assignment line carrying the
request value is appended. -/
theorem C7_counterexample :
    argsC7.region ≠ none
      ∧ aws_config_file "x" argsC7 "k" = "x"
      ∧ pyIn "region" (aws_config_file "x" argsC7 "k") = false := by
  decide

/-- Claim C7 (corrected): the renderer appends, after the two in-place
substitutions, exactly one assignment text per truthy optional argument
(present with a non-empty value), and none for an absent or
present-but-empty one. -/
theorem C7_amended :
    (∀ (config : String) (args : Args) (pub : String),
        aws_config_file config args pub =
          aws_base config pub
            ++ optAssign "\nregion = \"" args.region
            ++ optAssign "\navailability_zone = \"" args.availability_zone
            ++ optAssign "\nprofile = \"" args.profile)
    ∧ (∀ pre v, truthy v = true → optAssign pre v = pre ++ pyGet v ++ "\"")
    ∧ (∀ pre v, truthy v = false → optAssign pre v = "")
    ∧ (∀ v : Option String, truthy v = true ↔ v ≠ none ∧ pyGet v ≠ "") := by
  refine ⟨?_, ?_, ?_, ?_⟩
  · intro c a pub
    unfold aws_config_file aws_base optAssign
    cases hr : truthy a.region <;>
      cases hz : truthy a.availability_zone <;>
        cases hp2 : truthy a.profile <;>
          simp [hr, hz, hp2, String.append_empty, ← String.append_assoc]
  · intro pre v h
    simp [optAssign, h]
  · intro pre v h
    simp [optAssign, h]
  · intro v
    cases v <;> simp [truthy, pyGet]

/-- Claim C7 witness: concrete instances of the amended theorem. -/
theorem C7_witness :
    optAssign "\nregion = \"" (some "eu-west-1") = "\nregion = \"" ++ "eu-west-1" ++ "\""
      ∧ optAssign "\nregion = \"" none = "" :=
  ⟨C7_amended.2.1 _ (some "eu-west-1") (by decide),
   C7_amended.2.2.1 _ none (by decide)⟩

/-! ### Claim C8 -/

/-- Claim C8 (confirmed): the key-pair ensure step makes no external
call and leaves the key unchanged when it exists, generates exactly once
when absent, and running the step twice equals running it once. -/
theorem C8_key_idempotent :
    (∀ (k fresh : String) (ex : Int), ensure_key (some k) ex fresh = ([], Except.ok (some k)))
    ∧ (∀ fresh : String, ensure_key none 0 fresh
          = ([Event.sshKeygen "citc-key"], Except.ok (some fresh)))
    ∧ (∀ (st st2 : Option String) (ex ex2 : Int) (fresh fresh2 : String) (ev : List Event),
        ensure_key st ex fresh = (ev, Except.ok st2) →
        ensure_key st2 ex2 fresh2 = ([], Except.ok st2)) := by
  refine ⟨fun k fresh ex => rfl, fun fresh => rfl, ?_⟩
  intro st st2 ex ex2 fresh fresh2 ev h
  cases st with
  | some k =>
    simp [ensure_key] at h
    rw [← h.2]
    rfl
  | none =>
    simp only [ensure_key] at h
    split at h
    · simp at h
      rw [← h.2]
      rfl
    · exact absurd (congrArg Prod.snd h) (by simp)

/-- Claim C8 witness: generation when absent, then a second run that
changes nothing. -/
theorem C8_witness :
    ensure_key none 0 "F" = ([Event.sshKeygen "citc-key"], Except.ok (some "F"))
      ∧ ensure_key (some "K") 2 "G" = ([], Except.ok (some "K")) :=
  ⟨C8_key_idempotent.2.1 "F",
   C8_key_idempotent.2.2 (some "K") (some "K") 1 2 "F" "G" [] rfl⟩

/-! ### Claim C9 -/

/-- Claim C9 (confirmed): a provider outside the closed choice list is
rejected by argparse with exit code 2 before any event — in particular
before any network access — occurs. -/
theorem C9_unsupported_provider (args : Args) (w : World) (h : args.csp ≠ "aws") :
    main args w = ([], Outcome.exited 2) := by
  simp [main, h]

/-- Claim C9 witness: a concrete unknown provider. -/
theorem C9_witness : main { csp := "gcp" } {} = ([], Outcome.exited 2) :=
  C9_unsupported_provider { csp := "gcp" } {} (by decide)


/-! ### Claim C10 -/

/-- Claim C10 (confirmed): the fetch-infra step renames the directory
literally named terraform-(branch); for a repository whose name
component is not "terraform" (and no stale directory of that name), the
rename raises FileNotFoundError after the archive was already
downloaded and extracted. -/
theorem C10_rename_fails_for_other_repo (args : Args) (w : World)
    (hcsp : args.csp = "aws")
    (hpre : (preflight args w).2 = Except.ok ())
    (hname : repo_name args.terraform_repo ≠ "terraform")
    (hfs : ("terraform-" ++ args.terraform_branch) ∉ w.fs0) :
    (main args w).2 = Outcome.raised "FileNotFoundError"
      ∧ Event.urlretrieve (repo_url args) ∈ (main args w).1
      ∧ Event.extractTar ∈ (main args w).1 := by
  have hm : main args w = mainRun args w := by simp [main, hcsp]
  have hed : ("terraform-" ++ args.terraform_branch) ≠ extracted_dir args := by
    intro heq
    apply hname
    unfold extracted_dir at heq
    have h2 : ("terraform-" : String) ++ args.terraform_branch
        = ("terraform" ++ "-") ++ args.terraform_branch := rfl
    rw [h2] at heq
    have hd := congrArg String.data heq
    simp only [String.data_append] at hd
    have h3 := List.append_cancel_right hd
    have h4 := List.append_cancel_right h3
    exact (String.ext h4).symm
  have hnotin : ("terraform-" ++ args.terraform_branch) ∉
      (extracted_dir args :: w.fs0).filter (fun d => !(d == "citc-terraform")) := by
    intro hin
    have hin2 := List.mem_of_mem_filter hin
    rcases List.mem_cons.mp hin2 with h | h
    · exact hed h
    · exact hfs h
  have hfe : fetch_repo args w =
      ([Event.printMsg "Downloading CitC Terraform configuration",
        Event.urlretrieve (repo_url args), Event.extractTar,
        Event.rmtreeIgnore "citc-terraform"],
       Except.error (Outcome.raised "FileNotFoundError")) := by
    unfold fetch_repo
    rw [if_neg hnotin]
  rcases hp1 : preflight args w with ⟨ev1, r1⟩
  rw [hp1] at hpre
  simp at hpre
  subst hpre
  have hchain : mainChain args w =
      (ev1 ++ [Event.printMsg "Downloading CitC Terraform configuration",
        Event.urlretrieve (repo_url args), Event.extractTar,
        Event.rmtreeIgnore "citc-terraform"],
       Except.error (Outcome.raised "FileNotFoundError")) := by
    unfold mainChain
    rw [hp1, hfe]
    simp [seqE]
  refine ⟨?_, ?_, ?_⟩
  · rw [hm]
    simp [mainRun, hchain]
  · rw [hm]
    simp [mainRun, hchain]
  · rw [hm]
    simp [mainRun, hchain]

/-- Claim C10 witness inputs: an infra repository whose name component
is "ansible". -/
def argsC10 : Args := { terraform_repo := "clusterinthecloud/ansible", dry_run := true }

/-- Claim C10 witness: the concrete failing run. -/
theorem C10_witness :
    (main argsC10 {}).2 = Outcome.raised "FileNotFoundError"
      ∧ Event.urlretrieve (repo_url argsC10) ∈ (main argsC10 {}).1
      ∧ Event.extractTar ∈ (main argsC10 {}).1 :=
  C10_rename_fails_for_other_repo argsC10 {} rfl rfl (by decide) (by decide)

/-! ### Claim C4 -/

/-- Claim C4 (confirmed): in the non-dry-run credential preflight, a
probe failure whose output contains the DryRunOperation marker lets the
run continue (the repository download still happens); an output lacking
the marker is printed and the run exits 1 with nothing after the
preflight in its trace; a RequestExpired marker makes the expired
diagnostic precede the generic failure handling. -/
theorem C4_preflight_markers (args : Args) (w : World)
    (hcsp : args.csp = "aws") (hdry : args.dry_run = false)
    (hfail : w.probe.exitCode ≠ 0) :
    (pyIn "DryRunOperation" w.probe.output = true →
        (preflight args w).2 = Except.ok ()
          ∧ Event.urlretrieve (repo_url args) ∈ (main args w).1)
    ∧ (pyIn "DryRunOperation" w.probe.output = false →
        (main args w).2 = Outcome.exited 1
          ∧ (main args w).1 =
              Event.printMsg "Installing Cluster in the Cloud on AWS" :: (preflight args w).1
          ∧ Event.printMsg w.probe.output ∈ (preflight args w).1)
    ∧ (pyIn "RequestExpired" w.probe.output = true →
        (preflight args w).1 =
          Event.probeCall (check_command args)
            :: Event.printMsg "AWS credentials have expired:"
            :: (if pyIn "DryRunOperation" w.probe.output = true then []
                else [Event.printMsg w.probe.output])) := by
  have hm : main args w = mainRun args w := by simp [main, hcsp]
  refine ⟨?_, ?_, ?_⟩
  · intro hdd
    have hpf : (preflight args w).2 = Except.ok () := by
      simp [preflight, hdry, hfail, hdd]
    refine ⟨hpf, ?_⟩
    have hmem : Event.urlretrieve (repo_url args) ∈ (mainChain args w).1 :=
      mainChain_mem_fetch hpf (fetch_repo_has_url args w)
    rw [hm]
    simp only [mainRun]
    exact List.mem_cons_of_mem _ hmem
  · intro hdd
    have hpf : preflight args w =
        (Event.probeCall (check_command args)
           :: ((if pyIn "RequestExpired" w.probe.output = true then
                 [Event.printMsg "AWS credentials have expired:"] else [])
               ++ [Event.printMsg w.probe.output]),
         Except.error (Outcome.exited 1)) := by
      simp [preflight, hdry, hfail, hdd]
    have hchain := mainChain_pre_err args w (Outcome.exited 1) (by simp [hpf])
    refine ⟨?_, ?_, ?_⟩
    · rw [hm]
      simp [mainRun, hchain]
    · rw [hm]
      simp [mainRun, hchain]
    · rw [hpf]
      simp
  · intro hexp
    by_cases hdd : pyIn "DryRunOperation" w.probe.output = true
    · simp [preflight, hdry, hfail, hdd, hexp]
    · simp [preflight, hdry, hfail, hdd, hexp]

/-- Claim C4 witness input: a probe failure carrying both markers. -/
def worldC4 : World :=
  { probe := { exitCode := 1, output := "RequestExpired then DryRunOperation" } }

/-- Claim C4 witness: the deliberate-no-op marker lets the run continue
and the expired diagnostic is printed first. -/
theorem C4_witness :
    ((preflight {} worldC4).2 = Except.ok ()
        ∧ Event.urlretrieve (repo_url {}) ∈ (main {} worldC4).1)
      ∧ (preflight {} worldC4).1 =
          Event.probeCall (check_command {})
            :: Event.printMsg "AWS credentials have expired:"
            :: (if pyIn "DryRunOperation" worldC4.probe.output = true then []
                else [Event.printMsg worldC4.probe.output]) :=
  ⟨(C4_preflight_markers {} worldC4 rfl rfl (by decide)).1 (by decide),
   (C4_preflight_markers {} worldC4 rfl rfl (by decide)).2.2 (by decide)⟩


/-! ### Claim C1 -/

/-- Claim C1 inputs (counterexample): both terraform output commands
exit 0 with empty output. -/
def argsC1 : Args := {}

/-- Claim C1 world (counterexample): default world, where both output
commands succeed with empty output. -/
def worldC1 : World := { key := some "K" }

/-- Claim C1 (corrected, counterexample): with both extracted outputs
empty (and the output commands exiting 0), the run does NOT terminate:
it ends with exit 0 and State Handoff is performed with the empty
address and identifier. -/
theorem C1_counterexample :
    pyOutput worldC1.ipOut.output = "" ∧ pyOutput worldC1.idOut.output = ""
      ∧ (main argsC1 worldC1).2 = Outcome.ok
      ∧ Event.makeArchive "citc-terraform" "gztar" "." "citc-terraform-"
          ∈ (main argsC1 worldC1).1
      ∧ Event.scpAttempt (handoff_cmd "" "") 0 ∈ (main argsC1 worldC1).1 := by
  decide

/-- Claim C1 (corrected): after a successful apply, a *failing* output
command (non-zero exit, the way a missing output manifests) makes the
run terminate fatally with no handoff event in its trace; an empty
output value from a zero-exit command is not checked (see the
counterexample). -/
theorem C1_amended (args : Args) (w : World) (st : Option String) (tfv : String)
    (hcsp : args.csp = "aws") (hdry : args.dry_run = false)
    (hpre : (preflight args w).2 = Except.ok ())
    (hfetch : (fetch_repo args w).2 = Except.ok ())
    (htool : (download_terraform w.platform "1.0.3").2 = Except.ok tfv)
    (hkey : (ensure_key w.key w.keygenExit w.freshKey).2 = Except.ok st)
    (hiv : (init_validate args w).2 = Except.ok ())
    (happly : w.applyExit = 0) :
    (w.ipOut.exitCode ≠ 0 →
        (main args w).2 = Outcome.raised "CalledProcessError"
          ∧ ∀ e ∈ (main args w).1, isHandoffEv e = false)
    ∧ (w.ipOut.exitCode = 0 → w.idOut.exitCode ≠ 0 →
        (main args w).2 = Outcome.raised "CalledProcessError"
          ∧ ∀ e ∈ (main args w).1, isHandoffEv e = false) := by
  have hm : main args w = mainRun args w := by simp [main, hcsp]
  have hch := mainChain_eval args w st tfv hpre hfetch htool hkey hiv hcsp
  have noHand : (apply_outputs args w).2 = Except.error (Outcome.raised "CalledProcessError") →
      ∀ e ∈ (main args w).1, isHandoffEv e = false := by
    intro hao e he
    rw [hm] at he
    rcases mem_mainRun he with rfl | he
    · rfl
    rcases mem_mainChain he with h | h | h | h | h | h | h | ⟨out, hout, h⟩
    · exact preflight_handoff_free args w e h
    · exact (fetch_repo_quiet args w e h).2
    · exact (download_quiet _ _ e h).2
    · exact (ensure_key_quiet _ _ _ e h).2
    · exact (init_validate_quiet args w e h).2
    · rw [cfg_step_fst] at h
      simp at h
    · exact apply_outputs_handoff_free args w e h
    · rw [hao] at hout
      simp at hout
  have outc : (apply_outputs args w).2 = Except.error (Outcome.raised "CalledProcessError") →
      (main args w).2 = Outcome.raised "CalledProcessError" := by
    intro hao
    rw [hm]
    simp only [mainRun, hch, hao]
  constructor
  · intro hip
    have hao : (apply_outputs args w).2 = Except.error (Outcome.raised "CalledProcessError") := by
      simp [apply_outputs, hdry, happly, hip]
    exact ⟨outc hao, noHand hao⟩
  · intro hip0 hid
    have hao : (apply_outputs args w).2 = Except.error (Outcome.raised "CalledProcessError") := by
      simp [apply_outputs, hdry, happly, hip0, hid]
    exact ⟨outc hao, noHand hao⟩

/-- Claim C1 witness world: the address output command fails. -/
def worldC1b : World := { key := some "K", ipOut := { exitCode := 1, output := "boom" } }

/-- Claim C1 witness: the amended theorem at a concrete failing output. -/
theorem C1_witness :
    (main argsC1 worldC1b).2 = Outcome.raised "CalledProcessError"
      ∧ ∀ e ∈ (main argsC1 worldC1b).1, isHandoffEv e = false :=
  (C1_amended argsC1 worldC1b (some "K") "./terraform"
      rfl rfl rfl rfl rfl rfl rfl rfl).1 (by decide)

/-! ### Claim C5 -/

/-- Claim C5 (confirmed): a dry run emits no probe, apply, output or
scp event at all, finishes with exit 0, and its trace is exactly the
non-network phases followed by the simulated-apply notice, the
(simulated) handoff and the summary rendered from the placeholders
"1.1.1.1" and "test-cluster". -/
theorem C5_dry_run (args : Args) (w : World) (st : Option String) (tfv : String)
    (hdry : args.dry_run = true) (hcsp : args.csp = "aws")
    (hfetch : (fetch_repo args w).2 = Except.ok ())
    (htool : (download_terraform w.platform "1.0.3").2 = Except.ok tfv)
    (hkey : (ensure_key w.key w.keygenExit w.freshKey).2 = Except.ok st)
    (hiv : (init_validate args w).2 = Except.ok ()) :
    (∀ e ∈ (main args w).1, isSideEffect e = false)
      ∧ (main args w).2 = Outcome.ok
      ∧ (main args w).1 =
          Event.printMsg "Installing Cluster in the Cloud on AWS"
            :: ((fetch_repo args w).1 ++ ((download_terraform w.platform "1.0.3").1
            ++ ((ensure_key w.key w.keygenExit w.freshKey).1 ++ ((init_validate args w).1
            ++ ([Event.printMsg "... pretending to create the cluster ..."]
            ++ (handoff args w "1.1.1.1" "test-cluster"
                ++ summary "aws" "citc-terraform-test-cluster/citc-key" "1.1.1.1")))))) := by
  have hpre : (preflight args w).2 = Except.ok () := by
    rw [preflight_dry args w hdry]
  have hm : main args w = mainRun args w := by simp [main, hcsp]
  have hch := mainChain_eval args w st tfv hpre hfetch htool hkey hiv hcsp
  have hao := apply_outputs_dry args w hdry
  have hkp : ("citc-terraform-" ++ "test-cluster" ++ "/citc-key" : String)
      = "citc-terraform-test-cluster/citc-key" := rfl
  refine ⟨?_, ?_, ?_⟩
  · intro e he
    rw [hm] at he
    rcases mem_mainRun he with rfl | he
    · rfl
    rcases mem_mainChain he with h | h | h | h | h | h | h | ⟨out, hout, h⟩
    · rw [preflight_dry args w hdry] at h
      simp at h
    · exact (fetch_repo_quiet args w e h).1
    · exact (download_quiet _ _ e h).1
    · exact (ensure_key_quiet _ _ _ e h).1
    · exact (init_validate_quiet args w e h).1
    · rw [cfg_step_fst] at h
      simp at h
    · rw [hao] at h
      simp at h
      subst h
      rfl
    · rw [hao] at hout
      simp at hout
      subst hout
      rcases h with h | h
      · exact handoff_dry_side args w _ _ hdry e h
      · exact (summary_quiet _ _ _ e h).1
  · rw [hm]
    simp only [mainRun, hch, hao]
  · rw [hm]
    simp only [mainRun, hch, hao, preflight_dry args w hdry]
    rw [hkp, hcsp]
    simp

/-- Claim C5 witness inputs. -/
def argsC5 : Args := { dry_run := true }

/-- Claim C5 witness world. -/
def worldC5 : World := { key := some "K" }

/-- Claim C5 witness: a concrete dry run finishes with exit 0. -/
theorem C5_witness : (main argsC5 worldC5).2 = Outcome.ok :=
  (C5_dry_run argsC5 worldC5 (some "K") "./terraform" rfl rfl rfl rfl rfl rfl).2.1


/-! ### Claim C2 -/

/-- Claim C2 (confirmed): in a non-dry-run handoff (for an execution
whose copy eventually succeeds, after scpFails failing attempts) the
archive is built exactly once, before the retry loop; every non-zero
scp attempt is followed by the progress print, a 10-second sleep and an
identical retry (same command, hence the same archive, with no
re-archiving in the loop); the loop ends with a zero-exit attempt and
only then is the local archive removed; and the run's outcome does not
depend on the number of copy failures — a copy failure is never
escalated to a fatal outcome. -/
theorem C2_transfer_retry (args : Args) (w : World) (ip cid : String)
    (hdry : args.dry_run = false)
    (hsucc : w.scpExit w.scpFails = 0) :
    handoff args w ip cid =
      [Event.chdir "..",
       Event.renameDir "citc-terraform" ("citc-terraform-" ++ cid),
       Event.rmtree ("citc-terraform-" ++ cid ++ "/" ++ args.csp ++ "/.terraform"),
       Event.makeArchive "citc-terraform" "gztar" "." ("citc-terraform-" ++ cid)]
      ++ scpLoopFrom w.scpExit (handoff_cmd ip cid) 0 w.scpFails
      ++ [Event.removeFile (make_archive_name "citc-terraform")]
    ∧ (handoff args w ip cid).countP isMakeArchiveEv = 1
    ∧ (scpLoopFrom w.scpExit (handoff_cmd ip cid) 0 w.scpFails).countP isMakeArchiveEv = 0
    ∧ (∀ k cmd0 c,
        (scpLoopFrom w.scpExit (handoff_cmd ip cid) 0 w.scpFails).get? k
            = some (Event.scpAttempt cmd0 c) → c ≠ 0 →
          (scpLoopFrom w.scpExit (handoff_cmd ip cid) 0 w.scpFails).get? (k + 1)
              = some (Event.printMsg "Trying to upload Terraform state...")
            ∧ (scpLoopFrom w.scpExit (handoff_cmd ip cid) 0 w.scpFails).get? (k + 2)
              = some (Event.sleep 10)
            ∧ ∃ c2, (scpLoopFrom w.scpExit (handoff_cmd ip cid) 0 w.scpFails).get? (k + 3)
              = some (Event.scpAttempt cmd0 c2))
    ∧ (scpLoopFrom w.scpExit (handoff_cmd ip cid) 0 w.scpFails).getLast?
        = some (Event.scpAttempt (handoff_cmd ip cid) 0)
    ∧ (∀ n e, (mainRun args { w with scpFails := n, scpExit := e }).2
        = (mainRun args w).2)
    ∧ (∀ args2 : Args, args2.dry_run = true →
        handoff args2 w ip cid =
          [Event.chdir "..",
           Event.renameDir "citc-terraform" ("citc-terraform-" ++ cid),
           Event.rmtree ("citc-terraform-" ++ cid ++ "/" ++ args2.csp ++ "/.terraform"),
           Event.makeArchive "citc-terraform" "gztar" "." ("citc-terraform-" ++ cid)]
          ++ [Event.printMsg ("... pretending to upload the config "
                ++ make_archive_name "citc-terraform" ++ " to the cluster ...")]
          ++ [Event.removeFile (make_archive_name "citc-terraform")]) := by
  have h1 : handoff args w ip cid =
      [Event.chdir "..",
       Event.renameDir "citc-terraform" ("citc-terraform-" ++ cid),
       Event.rmtree ("citc-terraform-" ++ cid ++ "/" ++ args.csp ++ "/.terraform"),
       Event.makeArchive "citc-terraform" "gztar" "." ("citc-terraform-" ++ cid)]
      ++ scpLoopFrom w.scpExit (handoff_cmd ip cid) 0 w.scpFails
      ++ [Event.removeFile (make_archive_name "citc-terraform")] := by
    simp [handoff, hdry, handoff_cmd]
  refine ⟨h1, ?_, scpLoopFrom_countP_archive w.scpExit _ w.scpFails 0, ?_, ?_, ?_, ?_⟩
  · rw [h1]
    simp [List.countP_append, List.countP_cons, isMakeArchiveEv,
      scpLoopFrom_countP_archive]
  · intro k cmd0 c hk hc
    exact scpLoopFrom_retry w.scpExit (handoff_cmd ip cid) w.scpFails 0
      (by simpa using hsucc) k cmd0 c hk hc
  · rw [scpLoopFrom_getLast]
    simp [hsucc]
  · intro n e
    simp only [mainRun]
    rw [mainChain_scp_indep]
  · intro args2 h2
    simp [handoff, h2]

/-- Claim C2 witness inputs. -/
def argsC2 : Args := {}

/-- Claim C2 witness world: two failing attempts, then success. -/
def worldC2 : World := { scpFails := 2, scpExit := fun i => if i < 2 then 1 else 0 }

/-- Claim C2 witness: the structural equation at concrete inputs. -/
theorem C2_witness :
    handoff argsC2 worldC2 "1.2.3.4" "abc" =
      [Event.chdir "..",
       Event.renameDir "citc-terraform" ("citc-terraform-" ++ "abc"),
       Event.rmtree ("citc-terraform-" ++ "abc" ++ "/" ++ argsC2.csp ++ "/.terraform"),
       Event.makeArchive "citc-terraform" "gztar" "." ("citc-terraform-" ++ "abc")]
      ++ scpLoopFrom worldC2.scpExit (handoff_cmd "1.2.3.4" "abc") 0 worldC2.scpFails
      ++ [Event.removeFile (make_archive_name "citc-terraform")] :=
  (C2_transfer_retry argsC2 worldC2 "1.2.3.4" "abc" rfl (by decide)).1

/-! ### Claim C3 -/

/-- Claim C3 (corrected): the handoff renames the tree to embed the
cluster id and strips the provider-local .terraform cache before
archiving, but the archive file itself is named from the fixed base
alone ("citc-terraform.tar.gz"); the cluster identifier appears only in
the name of the archived directory. Every transfer attempt copies that
fixed-base file. -/
theorem C3_amended (args : Args) (w : World) (ip cid : String) :
    (handoff args w ip cid).get? 1
        = some (Event.renameDir "citc-terraform" ("citc-terraform-" ++ cid))
      ∧ (handoff args w ip cid).get? 2
        = some (Event.rmtree ("citc-terraform-" ++ cid ++ "/" ++ args.csp ++ "/.terraform"))
      ∧ (handoff args w ip cid).get? 3
        = some (Event.makeArchive "citc-terraform" "gztar" "." ("citc-terraform-" ++ cid))
      ∧ make_archive_name "citc-terraform" = "citc-terraform.tar.gz"
      ∧ (∀ cmd0 c, Event.scpAttempt cmd0 c ∈ handoff args w ip cid →
          cmd0 = handoff_cmd ip cid)
      ∧ (handoff_cmd ip cid).get? 7 = some "citc-terraform.tar.gz" := by
  refine ⟨rfl, rfl, rfl, rfl, ?_, rfl⟩
  intro cmd0 c hmem
  by_cases hd : args.dry_run = true
  · simp [handoff, hd] at hmem
  · simp [handoff, hd] at hmem
    exact scpLoopFrom_mem_attempt w.scpExit _ w.scpFails 0 cmd0 c hmem

/-- Claim C3 counterexample inputs. -/
def argsC3 : Args := {}

/-- Claim C3 counterexample world. -/
def worldC3 : World := {}

/-- Claim C3 (corrected, counterexample): at cluster id "XYZ" the
transferred artifact is "citc-terraform.tar.gz" — the fixed base with no
cluster identifier in it — not a base-plus-identifier name. -/
theorem C3_counterexample :
    Event.scpAttempt
        (scp_cmd "citc-terraform-XYZ/citc-key" "citc-terraform.tar.gz" "citc@1.2.3.4:.") 0
        ∈ handoff argsC3 worldC3 "1.2.3.4" "XYZ"
      ∧ make_archive_name "citc-terraform" = "citc-terraform.tar.gz"
      ∧ "citc-terraform.tar.gz" ≠ "citc-terraform-XYZ.tar.gz"
      ∧ pyIn "XYZ" "citc-terraform.tar.gz" = false := by
  decide

/-- Claim C3 witness: the amended theorem at concrete inputs. -/
theorem C3_witness :
    (handoff argsC3 worldC3 "1.2.3.4" "XYZ").get? 3
        = some (Event.makeArchive "citc-terraform" "gztar" "." ("citc-terraform-" ++ "XYZ"))
      ∧ scp_cmd "citc-terraform-XYZ/citc-key" "citc-terraform.tar.gz" "citc@1.2.3.4:."
          = handoff_cmd "1.2.3.4" "XYZ"
      ∧ (handoff_cmd "1.2.3.4" "XYZ").get? 7 = some "citc-terraform.tar.gz" :=
  ⟨(C3_amended argsC3 worldC3 "1.2.3.4" "XYZ").2.2.1,
   (C3_amended argsC3 worldC3 "1.2.3.4" "XYZ").2.2.2.2.1
     (scp_cmd "citc-terraform-XYZ/citc-key" "citc-terraform.tar.gz" "citc@1.2.3.4:.") 0
     (by decide),
   (C3_amended argsC3 worldC3 "1.2.3.4" "XYZ").2.2.2.2.2⟩

end CitC
